import Mathlib

/-!
Verification of the obsidian-vault-mcp core against its specification.

This file shallowly embeds the Python modules `obsidian_vault_mcp/tasks.py`,
`obsidian_vault_mcp/parser.py` and `obsidian_vault_mcp/vault.py`:
pure functions become Lean functions, file contents are strings, the wall
clock (`datetime.now()`) and filesystem modification times are explicit
parameters, and timestamps are modelled as seconds (`Int`) since a fixed
proleptic-Gregorian epoch (1970-01-01), exactly as ordered as
Python `datetime` values are.  Python `dict`s are modelled as association
lists with insert-or-update semantics (insertion order preserved), which
matches CPython semantics.  Section fingerprints use a full executable
MD5 implementation, as the source uses `hashlib.md5`.
-/

namespace ObsVault

/-! ## Python-style string primitives (over `List Char`) -/

/-- Whitespace test matching Python `str.split()` / `str.strip()` defaults
    (ASCII whitespace; the sources only ever strip ASCII). -/
def isPySpace (c : Char) : Bool :=
  c == ' ' || c == '\t' || c == '\n' || c == '\r' ||
  c == Char.ofNat 11 || c == Char.ofNat 12

/-- Left brace character, written via its code point. -/
def lbrace : Char := Char.ofNat 123

/-- Right brace character, written via its code point. -/
def rbrace : Char := Char.ofNat 125

/-- Does `pat` occur at the head of `s`? -/
def isPrefixList (pat s : List Char) : Bool :=
  match pat, s with
  | [], _ => true
  | _ :: _, [] => false
  | p :: ps, c :: cs => p == c && isPrefixList ps cs

def findSubAux (pat : List Char) (s : List Char) (i : Nat) : Option Nat :=
  if isPrefixList pat s then some i
  else
    match s with
    | [] => none
    | _ :: cs => findSubAux pat cs (i + 1)

/-- Index of the first occurrence of `pat` in `s` (Python `str.find`,
    with `none` for `-1`). -/
def findSub (pat s : List Char) : Option Nat :=
  findSubAux pat s 0

/-- Python `pat in s` substring test. -/
def containsSub (pat s : List Char) : Bool :=
  (findSub pat s).isSome

/-- Python `str.strip()` with default (whitespace) chars. -/
def pyStrip (s : List Char) : List Char :=
  ((s.dropWhile isPySpace).reverse.dropWhile isPySpace).reverse

/-- Python `str.strip(chars)` for an explicit char set. -/
def pyStripChars (cs : List Char) (s : List Char) : List Char :=
  ((s.dropWhile (cs.contains ·)).reverse.dropWhile (cs.contains ·)).reverse

/-- Python `str.rstrip()`. -/
def pyRstrip (s : List Char) : List Char :=
  (s.reverse.dropWhile isPySpace).reverse

def pySplitWsAux : List Char → List Char → List (List Char)
  | [], acc => if acc.isEmpty then [] else [acc.reverse]
  | c :: cs, acc =>
    if isPySpace c then
      if acc.isEmpty then pySplitWsAux cs []
      else acc.reverse :: pySplitWsAux cs []
    else pySplitWsAux cs (c :: acc)

/-- Python `str.split()` (no argument): split on whitespace runs,
    dropping empty fields. -/
def pySplitWs (s : List Char) : List (List Char) :=
  pySplitWsAux s []

/-- Python `sep.join(parts)` for a one-char separator. -/
def joinWith (sep : Char) : List (List Char) → List Char
  | [] => []
  | [w] => w
  | w :: ws => w ++ sep :: joinWith sep ws

/-- Python `str.split(sep)` for a one-char separator: keeps empty fields. -/
def pySplitChar (sep : Char) : List Char → List (List Char)
  | [] => [[]]
  | c :: cs =>
    let r := pySplitChar sep cs
    if c == sep then [] :: r
    else
      match r with
      | [] => [[c]]
      | h :: t => (c :: h) :: t

/-- Python `str.split(sep, 1)` for a one-char separator, as an optional
    (before, after) pair; `none` when `sep` does not occur. -/
def pySplitCharOnce (sep : Char) : List Char → Option (List Char × List Char)
  | [] => none
  | c :: cs =>
    if c == sep then some ([], cs)
    else
      match pySplitCharOnce sep cs with
      | none => none
      | some (pre, post) => some (c :: pre, post)

/-- Split at the first occurrence of the substring `sep`. -/
def splitSubOnce (sep s : List Char) : Option (List Char × List Char) :=
  match findSub sep s with
  | none => none
  | some i => some (s.take i, s.drop (i + sep.length))

/-- Python `str.split(sep, maxsplit)` for a substring separator. -/
def pySplitSub (sep : List Char) : Nat → List Char → List (List Char)
  | 0, s => [s]
  | Nat.succ k, s =>
    match splitSubOnce sep s with
    | none => [s]
    | some (pre, post) => pre :: pySplitSub sep k post

/-- Python `str.lower()` (ASCII; the sources only lowercase ASCII data). -/
def pyLower (s : List Char) : List Char :=
  s.map Char.toLower

/-- Drop characters up to (but not including) the next newline: the tail a
    `MULTILINE` regex `.*$` leaves unconsumed. -/
def dropToNl : List Char → List Char
  | [] => []
  | c :: cs => if c == '\n' then c :: cs else dropToNl cs

def reSubLineAux (marker repl : List Char) : Nat → List Char → List Char
  | 0, s => s
  | Nat.succ fl, s =>
    match s with
    | [] => []
    | c :: cs =>
      if isPrefixList marker s then
        repl ++ reSubLineAux marker repl fl (dropToNl (s.drop marker.length))
      else c :: reSubLineAux marker repl fl cs

/-- Python `re.sub(re.escape(marker) + ".*$", repl, s, flags=re.MULTILINE)`:
    every occurrence of `marker`, together with the rest of its line, is
    replaced by `repl`.  Fuel equal to the string length suffices because
    each step consumes at least one character (`marker` is nonempty at all
    call sites). -/
def reSubLine (marker repl s : List Char) : List Char :=
  reSubLineAux marker repl s.length s

def reSubSpanAux (startM endM repl : List Char) : Nat → List Char → List Char
  | 0, s => s
  | Nat.succ fl, s =>
    match s with
    | [] => []
    | c :: cs =>
      if isPrefixList startM s then
        let rest := s.drop startM.length
        match findSub endM rest with
        | some j => repl ++ reSubSpanAux startM endM repl fl (rest.drop (j + endM.length))
        | none => c :: reSubSpanAux startM endM repl fl cs
      else c :: reSubSpanAux startM endM repl fl cs

/-- Python `re.sub(re.escape(startM) + ".*?" + re.escape(endM), repl, s,
    flags=re.DOTALL)`: each non-overlapping span from a `startM` to the
    earliest following `endM` is replaced by `repl` (the replacement
    strings used by the source contain no backslashes, so replacement-
    escape processing is the identity). -/
def reSubSpan (startM endM repl s : List Char) : List Char :=
  reSubSpanAux startM endM repl s.length s

/-- String-level wrapper for `containsSub`. -/
def strContains (pat s : String) : Bool := containsSub pat.data s.data

/-- String-level wrapper for Python `str.startswith`. -/
def strStartsWith (pat s : String) : Bool := isPrefixList pat.data s.data

/-! ## MD5 (`hashlib.md5(...).hexdigest()`), executable over `Nat` -/

/-- Modulus for 32-bit words. -/
def M32 : Nat := 4294967296

def add32 (a b : Nat) : Nat := (a + b) % M32

def not32 (a : Nat) : Nat := Nat.xor a (M32 - 1)

def rotl32 (x s : Nat) : Nat :=
  ((x <<< s) % M32) ||| (x >>> (32 - s))

/-- MD5 sine-derived constant table. -/
def kTable : List Nat :=
  [0xd76aa478, 0xe8c7b756, 0x242070db, 0xc1bdceee,
   0xf57c0faf, 0x4787c62a, 0xa8304613, 0xfd469501,
   0x698098d8, 0x8b44f7af, 0xffff5bb1, 0x895cd7be,
   0x6b901122, 0xfd987193, 0xa679438e, 0x49b40821,
   0xf61e2562, 0xc040b340, 0x265e5a51, 0xe9b6c7aa,
   0xd62f105d, 0x02441453, 0xd8a1e681, 0xe7d3fbc8,
   0x21e1cde6, 0xc33707d6, 0xf4d50d87, 0x455a14ed,
   0xa9e3e905, 0xfcefa3f8, 0x676f02d9, 0x8d2a4c8a,
   0xfffa3942, 0x8771f681, 0x6d9d6122, 0xfde5380c,
   0xa4beea44, 0x4bdecfa9, 0xf6bb4b60, 0xbebfbc70,
   0x289b7ec6, 0xeaa127fa, 0xd4ef3085, 0x04881d05,
   0xd9d4d039, 0xe6db99e5, 0x1fa27cf8, 0xc4ac5665,
   0xf4292244, 0x432aff97, 0xab9423a7, 0xfc93a039,
   0x655b59c3, 0x8f0ccc92, 0xffeff47d, 0x85845dd1,
   0x6fa87e4f, 0xfe2ce6e0, 0xa3014314, 0x4e0811a1,
   0xf7537e82, 0xbd3af235, 0x2ad7d2bb, 0xeb86d391]

/-- MD5 per-round left-rotation amounts. -/
def sTable : List Nat :=
  [7, 12, 17, 22, 7, 12, 17, 22, 7, 12, 17, 22, 7, 12, 17, 22,
   5, 9, 14, 20, 5, 9, 14, 20, 5, 9, 14, 20, 5, 9, 14, 20,
   4, 11, 16, 23, 4, 11, 16, 23, 4, 11, 16, 23, 4, 11, 16, 23,
   6, 10, 15, 21, 6, 10, 15, 21, 6, 10, 15, 21, 6, 10, 15, 21]

/-- One MD5 operation on state `(a, b, c, d)` with chunk words `m`. -/
def md5Op (m : List Nat) (st : Nat × Nat × Nat × Nat) (i : Nat) :
    Nat × Nat × Nat × Nat :=
  let a := st.1
  let b := st.2.1
  let c := st.2.2.1
  let d := st.2.2.2
  let f :=
    if i < 16 then (b &&& c) ||| (not32 b &&& d)
    else if i < 32 then (d &&& b) ||| (not32 d &&& c)
    else if i < 48 then Nat.xor b (Nat.xor c d)
    else Nat.xor c (b ||| not32 d)
  let g :=
    if i < 16 then i
    else if i < 32 then (5 * i + 1) % 16
    else if i < 48 then (3 * i + 5) % 16
    else (7 * i) % 16
  let f' := add32 (add32 (add32 f a) (kTable.getD i 0)) (m.getD g 0)
  (d, add32 b (rotl32 f' (sTable.getD i 0)), b, c)

/-- Process one 16-word chunk, updating the running state. -/
def md5Chunk (st : Nat × Nat × Nat × Nat) (m : List Nat) :
    Nat × Nat × Nat × Nat :=
  let r := (List.range 64).foldl (md5Op m) st
  (add32 st.1 r.1, add32 st.2.1 r.2.1,
   add32 st.2.2.1 r.2.2.1, add32 st.2.2.2 r.2.2.2)

/-- Group a byte list into little-endian 32-bit words. -/
def bytesToWordsLE : List Nat → List Nat
  | b0 :: b1 :: b2 :: b3 :: rest =>
    (b0 + 256 * b1 + 65536 * b2 + 16777216 * b3) :: bytesToWordsLE rest
  | _ => []

def chunks16Aux : Nat → List Nat → List (List Nat)
  | 0, _ => []
  | Nat.succ fl, ws =>
    if ws.isEmpty then []
    else if ws.length < 16 then [ws]
    else ws.take 16 :: chunks16Aux fl (ws.drop 16)

/-- Split a word list into 16-word chunks (fuel-based structural
    recursion; fuel equal to the length always suffices). -/
def chunks16 (ws : List Nat) : List (List Nat) :=
  chunks16Aux ws.length ws

/-- Little-endian byte expansion of a Nat to `n` bytes. -/
def natToBytesLE : Nat → Nat → List Nat
  | 0, _ => []
  | Nat.succ k, v => v % 256 :: natToBytesLE k (v / 256)

/-- MD5 padding: `0x80`, zeros to 56 mod 64, then the 64-bit little-endian
    bit length. -/
def md5Pad (msg : List Nat) : List Nat :=
  let len := msg.length
  let padLen := (55 + 64 - len % 64) % 64 + 1
  msg ++ 128 :: List.replicate (padLen - 1) 0 ++
    natToBytesLE 8 ((len * 8) % (2 ^ 64))

def hexDigit (n : Nat) : Char :=
  ("0123456789abcdef".data).getD n '0'

/-- Two lowercase hex digits of one byte. -/
def byteToHex (b : Nat) : List Char :=
  [hexDigit (b / 16 % 16), hexDigit (b % 16)]

/-- Hex rendering of one state word, least significant byte first. -/
def wordToHexLE (w : Nat) : List Char :=
  (natToBytesLE 4 w).foldr (fun b acc => byteToHex b ++ acc) []

/-- UTF-8 encoding of one character (Python `str.encode("utf-8")`). -/
def utf8Encode (c : Char) : List Nat :=
  let n := c.toNat
  if n < 128 then [n]
  else if n < 2048 then [192 ||| (n >>> 6), 128 ||| (n &&& 63)]
  else if n < 65536 then
    [224 ||| (n >>> 12), 128 ||| ((n >>> 6) &&& 63), 128 ||| (n &&& 63)]
  else
    [240 ||| (n >>> 18), 128 ||| ((n >>> 12) &&& 63),
     128 ||| ((n >>> 6) &&& 63), 128 ||| (n &&& 63)]

/-- UTF-8 bytes of a string. -/
def strToBytes (s : String) : List Nat :=
  s.data.flatMap utf8Encode

/-- Full MD5 hex digest of a string, as `hashlib.md5(s.encode()).hexdigest()`. -/
def md5Hex (s : String) : String :=
  let ws := bytesToWordsLE (md5Pad (strToBytes s))
  let st := (chunks16 ws).foldl md5Chunk
    (0x67452301, 0xefcdab89, 0x98badcfe, 0x10325476)
  String.mk (wordToHexLE st.1 ++ wordToHexLE st.2.1 ++
    wordToHexLE st.2.2.1 ++ wordToHexLE st.2.2.2)

end ObsVault

namespace ObsVault

/-! ## Calendar arithmetic (model of `datetime`)

Timestamps are seconds since 1970-01-01 as `Int`; `datetime` values are
totally ordered exactly as these integers are.  `daysFromCivil` is the
standard civil-from-days algorithm, valid for the years `datetime`
supports (year at least 1). -/

def isLeap (y : Nat) : Bool :=
  y % 4 = 0 && (y % 100 ≠ 0 || y % 400 = 0)

def daysInMonth (y m : Nat) : Nat :=
  if m = 2 then (if isLeap y then 29 else 28)
  else if m = 4 || m = 6 || m = 9 || m = 11 then 30
  else 31

/-- Days since 1970-01-01 of the civil date `y-m-d` (requires `1 ≤ y`). -/
def daysFromCivil (y m d : Nat) : Int :=
  let y' := if m ≤ 2 then y - 1 else y
  let era := y' / 400
  let yoe := y' - era * 400
  let doy := (153 * (if m > 2 then m - 3 else m + 9) + 2) / 5 + d - 1
  let doe := yoe * 365 + yoe / 4 - yoe / 100 + doy
  (era * 146097 + doe : Int) - 719468

/-- Seconds-since-epoch of midnight on a civil date. -/
def dateSecs (y m d : Nat) : Int := daysFromCivil y m d * 86400

/-- Seconds-since-epoch of a civil date and time. -/
def dateTimeSecs (y m d hh mm ss : Nat) : Int :=
  dateSecs y m d + (hh * 3600 + mm * 60 + ss : Nat)

/-- Valid civil date as `datetime` accepts it. -/
def validYmd (y m d : Nat) : Bool :=
  1 ≤ y && y ≤ 9999 && 1 ≤ m && m ≤ 12 && 1 ≤ d && d ≤ daysInMonth y m

def digitsToNat (ds : List Char) : Nat :=
  ds.foldl (fun acc c => acc * 10 + (c.toNat - 48)) 0

/-- Match exactly `k` decimal digits at the head of `s`. -/
def matchDigits : Nat → List Char → Option (List Char × List Char)
  | 0, s => some ([], s)
  | Nat.succ _, [] => none
  | Nat.succ k, c :: cs =>
    if c.isDigit then
      match matchDigits k cs with
      | some (ds, rest) => some (c :: ds, rest)
      | none => none
    else none

/-- Match `\d{4}-\d{2}-\d{2}` at the head of `s`, returning the matched
    text (used by the task-marker regexes, which are unanchored at the
    right). -/
def matchIsoDateAt (s : List Char) : Option (List Char) :=
  match matchDigits 4 s with
  | none => none
  | some (y, s1) =>
    match s1 with
    | '-' :: s2 =>
      match matchDigits 2 s2 with
      | none => none
      | some (mo, s3) =>
        match s3 with
        | '-' :: s4 =>
          match matchDigits 2 s4 with
          | none => none
          | some (d, _) => some (y ++ '-' :: mo ++ '-' :: d)
        | _ => none
    | _ => none

/-- Parse `YYYY-MM-DD` at the head, returning fields and the rest. -/
def parseYmdHead (s : List Char) : Option (Nat × Nat × Nat × List Char) :=
  match matchDigits 4 s with
  | none => none
  | some (y, s1) =>
    match s1 with
    | '-' :: s2 =>
      match matchDigits 2 s2 with
      | none => none
      | some (mo, s3) =>
        match s3 with
        | '-' :: s4 =>
          match matchDigits 2 s4 with
          | none => none
          | some (d, rest) =>
            some (digitsToNat y, digitsToNat mo, digitsToNat d, rest)
        | _ => none
    | _ => none

/-- Parse `HH:MM:SS` to end of string. -/
def parseHmsAll (s : List Char) : Option (Nat × Nat × Nat) :=
  match matchDigits 2 s with
  | some (h, ':' :: s1) =>
    match matchDigits 2 s1 with
    | some (m, ':' :: s2) =>
      match matchDigits 2 s2 with
      | some (sec, []) =>
        let hn := digitsToNat h
        let mn := digitsToNat m
        let sn := digitsToNat sec
        if hn < 24 && mn < 60 && sn < 60 then some (hn, mn, sn) else none
      | _ => none
    | _ => none
  | _ => none

/-- Model of `datetime.fromisoformat` on the shapes this codebase feeds
    it: `YYYY-MM-DD`, optionally followed by `T` or a space and
    `HH:MM:SS`.  Returns `none` where Python raises `ValueError`. -/
def fromisoformat (s : String) : Option Int :=
  match parseYmdHead s.data with
  | none => none
  | some (y, m, d, rest) =>
    if validYmd y m d then
      match rest with
      | [] => some (dateSecs y m d)
      | sep :: t =>
        if sep == 'T' || sep == ' ' then
          match parseHmsAll t with
          | some (hh, mm, ss) => some (dateTimeSecs y m d hh mm ss)
          | none => none
        else none
    else none

/-- Earliest representable timestamp, `datetime.min` (0001-01-01 00:00). -/
def datetimeMin : Int := dateSecs 1 1 1

end ObsVault

namespace ObsVault

/-! ## `tasks.py`: `Task`, `TaskParser`, `TaskStats`

The wall clock (`datetime.now()`) is an explicit `now : Int` parameter.
`parse_tasks` is modelled line by line: each physical line matching the
checkbox pattern yields exactly the same task fields as the source regex
(`^(\s*)- \[([ xX])\] (.+)$` with `MULTILINE`); `source_line` is the
physical 1-based line number (the source derives it by counting newlines
before the match start, which coincides except when `\s*` swallows
preceding blank lines — a discrepancy in `source_line` only, not in any
other field). -/

structure Task where
  content : String
  completed : Bool
  completion_date : Option String
  due_date : Option String
  priority : Option String
  recurrence : Option String
  tags : List String
  source_file : String
  source_line : Nat
  blocked : Bool
deriving Repr, DecidableEq

/-- Python truthiness of an optional-string field (`None` and `""` are
    falsy). -/
def optStrTruthy : Option String → Bool
  | none => false
  | some s => !(s == "")

/-- Search for `glyph` followed by a space and `\d{4}-\d{2}-\d{2}`,
    returning the date group of the first match (`re.search`). -/
def searchGlyphDate (glyph : Char) : List Char → Option String
  | [] => none
  | c :: cs =>
    if c == glyph then
      match cs with
      | ' ' :: rest =>
        match matchIsoDateAt rest with
        | some d => some (String.mk d)
        | none => searchGlyphDate glyph cs
      | _ => searchGlyphDate glyph cs
    else searchGlyphDate glyph cs

/-- `TaskParser._extract_completion_date`: first `"✅ YYYY-MM-DD"` marker. -/
def extractCompletionDate (content : String) : Option String :=
  searchGlyphDate '✅' content.data

/-- `TaskParser._extract_due_date`: first `"📅 YYYY-MM-DD"` marker. -/
def extractDueDate (content : String) : Option String :=
  searchGlyphDate '📅' content.data

/-- `TaskParser._extract_priority`: `⏫` high, `🔼` medium, `🔽` low, in
    that precedence order. -/
def extractPriority (content : String) : Option String :=
  if containsSub ['⏫'] content.data then some "high"
  else if containsSub ['🔼'] content.data then some "medium"
  else if containsSub ['🔽'] content.data then some "low"
  else none

/-- `TaskParser._extract_recurrence`: regex `🔁 (.+?)(?:\s|$)` — after the
    glyph and a space, the lazily-shortest nonempty run of non-newline
    characters ending at whitespace or end of string. -/
def extractRecurrenceAux : List Char → Option String
  | [] => none
  | c :: cs =>
    if c == '🔁' then
      match cs with
      | ' ' :: r0 :: rest =>
        if r0 == '\n' then extractRecurrenceAux cs
        else some (String.mk (r0 :: rest.takeWhile (fun c' => !isPySpace c')))
      | _ => extractRecurrenceAux cs
    else extractRecurrenceAux cs

def extractRecurrence (content : String) : Option String :=
  extractRecurrenceAux content.data

/-- Word character for the `#(\w+)` tag regex (ASCII; the model covers
    the ASCII tags the vault uses). -/
def isWordChar (c : Char) : Bool :=
  c.isAlphanum || c == '_'

def extractTaskTagsAux : Nat → List Char → List String
  | 0, _ => []
  | Nat.succ fl, s =>
    match s with
    | [] => []
    | c :: cs =>
      if c == '#' then
        let w := cs.takeWhile isWordChar
        if w.isEmpty then extractTaskTagsAux fl cs
        else String.mk w :: extractTaskTagsAux fl (cs.drop w.length)
      else extractTaskTagsAux fl cs

/-- `TaskParser._extract_tags`: `re.findall(r"#(\w+)", content)`
    (fuel-based; each step consumes at least one character). -/
def extractTaskTags (s : List Char) : List String :=
  extractTaskTagsAux s.length s

/-- `TaskParser.BLOCKED_KEYWORDS`. -/
def blockedKeywords : List String :=
  ["blocked", "waiting", "waiting on", "waiting for",
   "needs approval", "on hold", "paused"]

/-- `TaskParser._is_blocked`: keyword containment in the lowercased text. -/
def isBlocked (content : String) : Bool :=
  blockedKeywords.any fun kw => containsSub kw.data (pyLower content.data)

/-- Match one line against `^(\s*)- \[([ xX])\] (.+)$`: returns the
    checkbox character and the task text. -/
def matchTaskLine (line : List Char) : Option (Char × List Char) :=
  match line.dropWhile isPySpace with
  | '-' :: ' ' :: '[' :: cb :: ']' :: ' ' :: body =>
    if (cb == ' ' || cb == 'x' || cb == 'X') && !body.isEmpty then
      some (cb, body)
    else none
  | _ => none

/-- Build one `Task` from a matched line, as the loop body of
    `TaskParser.parse_tasks` does (including the demotion of a checked
    box without completion date). -/
def mkTask (source_file : String) (line_num : Nat) (cb : Char)
    (body : List Char) : Task :=
  let task_content := String.mk body
  let completion_date := extractCompletionDate task_content
  let completed0 := cb.toLower == 'x'
  let completed := if completed0 && !(optStrTruthy completion_date) then false
                   else completed0
  { content := task_content
    completed := completed
    completion_date := completion_date
    due_date := extractDueDate task_content
    priority := extractPriority task_content
    recurrence := extractRecurrence task_content
    tags := extractTaskTags body
    source_file := source_file
    source_line := line_num
    blocked := isBlocked task_content }

/-- `TaskParser.parse_tasks`. -/
def parse_tasks (content source_file : String) : List Task :=
  (pySplitChar '\n' content.data).enum.filterMap fun p =>
    match matchTaskLine p.2 with
    | some (cb, body) => some (mkTask source_file (p.1 + 1) cb body)
    | none => none

/-- `Task.is_completed_in_range` at wall-clock `now`. -/
def Task.is_completed_in_range (t : Task) (now : Int) (days : Nat) : Bool :=
  if !t.completed || !(optStrTruthy t.completion_date) then false
  else
    match t.completion_date with
    | none => false
    | some ds =>
      match fromisoformat ds with
      | none => false
      | some completion => completion ≥ now - 86400 * days

/-- `Task.is_due_soon` at wall-clock `now`. -/
def Task.is_due_soon (t : Task) (now : Int) (days : Nat) : Bool :=
  if !(optStrTruthy t.due_date) || t.completed then false
  else
    match t.due_date with
    | none => false
    | some ds =>
      match fromisoformat ds with
      | none => false
      | some due => now ≤ due && due ≤ now + 86400 * days

/-- `Task.is_overdue` at wall-clock `now`. -/
def Task.is_overdue (t : Task) (now : Int) : Bool :=
  if !(optStrTruthy t.due_date) || t.completed then false
  else
    match t.due_date with
    | none => false
    | some ds =>
      match fromisoformat ds with
      | none => false
      | some due => due < now

/-- `TaskStats` (the `*_tasks` detail lists hold the tasks themselves;
    the source stores `to_dict()` images of the same tasks). -/
structure TaskStats where
  total_tasks : Nat
  completed : Nat
  active : Nat
  blocked : Nat
  overdue : Nat
  due_soon : Nat
  completed_this_week : Nat
  completed_this_month : Nat
  high_priority : Nat
  completed_tasks : List Task
  active_tasks : List Task
  blocked_tasks : List Task
  overdue_tasks : List Task
  due_soon_tasks : List Task
deriving Repr, DecidableEq

/-- `TaskParser.calculate_stats` at wall-clock `now`. -/
def calculate_stats (now : Int) (tasks : List Task)
    (lookback_days : Nat := 7) : TaskStats :=
  let completed := tasks.filter fun t =>
    t.completed && optStrTruthy t.completion_date
  let active := tasks.filter fun t => !t.completed && !t.blocked
  let blocked := tasks.filter fun t => t.blocked && !t.completed
  let overdue := tasks.filter fun t => t.is_overdue now
  let due_soon := tasks.filter fun t => t.is_due_soon now lookback_days
  let completed_this_week := completed.filter fun t =>
    t.is_completed_in_range now 7
  let completed_this_month := completed.filter fun t =>
    t.is_completed_in_range now 30
  let high_priority := tasks.filter fun t =>
    t.priority == some "high" && !t.completed
  { total_tasks := tasks.length
    completed := completed.length
    active := active.length
    blocked := blocked.length
    overdue := overdue.length
    due_soon := due_soon.length
    completed_this_week := completed_this_week.length
    completed_this_month := completed_this_month.length
    high_priority := high_priority.length
    completed_tasks := completed_this_week
    active_tasks := active.take 20
    blocked_tasks := blocked
    overdue_tasks := overdue
    due_soon_tasks := due_soon }

end ObsVault

namespace ObsVault

/-! ## `parser.py`: `Note`

A vault file is modelled by a `FileEntry`: its vault-relative
'/'-separated path, its body after the frontmatter block (what
`frontmatter.loads(...).content` yields), its parsed frontmatter fields of
interest (what `frontmatter.loads(...).metadata` yields, as structured
data), and its filesystem modification time (`none` models an
`OSError`).  The `Note` constructor then derives the indexed fields
exactly as `parser.Note.__init__` does. -/

/-- The `tags` frontmatter value as `Note._extract_tags` receives it. -/
inductive TagsVal where
  | absent
  | vstr (s : String)
  | vlist (l : List String)
  | other
deriving Repr, DecidableEq

/-- The `created` frontmatter value as `Note._extract_created` receives
    it: absent, a string, an already-typed `datetime`, or any other type
    (for example the `datetime.date` YAML yields for an unquoted date,
    which is neither a `datetime` nor a `str` and parses to `None`). -/
inductive CreatedVal where
  | absent
  | vstr (s : String)
  | vdatetime (t : Int)
  | other
deriving Repr, DecidableEq

structure NoteMeta where
  tags : TagsVal := .absent
  created : CreatedVal := .absent
  para : Option String := none
deriving Repr, DecidableEq

structure FileEntry where
  path : String
  content : String
  meta : NoteMeta
  mtime : Option Int := none
deriving Repr, DecidableEq

/-- Split on runs of commas and whitespace, dropping empty fields —
    `re.split(r"[,\s]+", s)` followed by the `if t.strip()` filter
    (tokens contain no delimiter characters, so their `strip()` is the
    identity). -/
def splitTagString (s : List Char) : List (List Char) :=
  let isDelim := fun c => isPySpace c || c == ','
  let rec go : List Char → List Char → List (List Char)
    | [], acc => if acc.isEmpty then [] else [acc.reverse]
    | c :: cs, acc =>
      if isDelim c then
        if acc.isEmpty then go cs [] else acc.reverse :: go cs []
      else go cs (c :: acc)
  go s []

/-- `Note._extract_tags`: accepts a delimited string or a list, then
    removes leading `#` via `t.lstrip("#")` (which strips every leading
    `#`, not just one). -/
def extract_tags (v : TagsVal) : List String :=
  let toks : List String :=
    match v with
    | .absent => []
    | .other => []
    | .vstr s => (splitTagString s.data).map String.mk
    | .vlist l => (l.filter fun t => !(t == "")).map fun t =>
        String.mk (pyStrip t.data)
  toks.map fun t => String.mk (t.data.dropWhile (· == '#'))

/-- `strptime(s, "%Y-%m-%d")` (4-2-2 digit shape, as the vault stores). -/
def strptimeYmd (s : String) : Option Int :=
  match parseYmdHead s.data with
  | some (y, m, d, []) => if validYmd y m d then some (dateSecs y m d) else none
  | _ => none

/-- `strptime` with `"%Y-%m-%dT%H:%M:%S"` or `"%Y-%m-%d %H:%M:%S"`. -/
def strptimeYmdHms (sep : Char) (s : String) : Option Int :=
  match parseYmdHead s.data with
  | some (y, m, d, c :: rest) =>
    if c == sep && validYmd y m d then
      match parseHmsAll rest with
      | some (hh, mm, ss) => some (dateTimeSecs y m d hh mm ss)
      | none => none
    else none
  | _ => none

/-- `strptime(s, "%Y%m%d")`. -/
def strptimeYmdCompact (s : String) : Option Int :=
  match matchDigits 4 s.data with
  | some (y, rest) =>
    match matchDigits 2 rest with
    | some (m, rest2) =>
      match matchDigits 2 rest2 with
      | some (d, []) =>
        let yn := digitsToNat y
        let mn := digitsToNat m
        let dn := digitsToNat d
        if validYmd yn mn dn then some (dateSecs yn mn dn) else none
      | _ => none
    | _ => none
  | _ => none

/-- `Note._extract_created`: falsy values yield `None`; a `datetime`
    passes through; a string is tried against the four formats in order. -/
def extract_created (v : CreatedVal) : Option Int :=
  match v with
  | .absent => none
  | .other => none
  | .vdatetime t => some t
  | .vstr s =>
    if s == "" then none
    else
      match strptimeYmd s with
      | some t => some t
      | none =>
        match strptimeYmdHms 'T' s with
        | some t => some t
        | none =>
          match strptimeYmdHms ' ' s with
          | some t => some t
          | none => strptimeYmdCompact s

structure Note where
  path : String
  title : String
  content : String
  tags : List String
  created : Option Int
  modified : Option Int
  para_location : Option String
deriving Repr, DecidableEq

/-- Last '/'-component of a path. -/
def lastComponent (p : String) : String :=
  String.mk ((pySplitChar '/' p.data).getLastD [])

/-- `pathlib.Path.stem`: the final component without its last suffix (a
    leading dot does not start a suffix). -/
def pathStem (p : String) : String :=
  let name := (lastComponent p).data
  match findSub ['.'] name.reverse with
  | some i =>
    if i + 1 < name.length then String.mk (name.take (name.length - 1 - i))
    else String.mk name
  | none => String.mk name

/-- Does the path name a markdown file (`rglob("*.md")` /
    `suffix == ".md"`)? -/
def isMdPath (p : String) : Bool :=
  isPrefixList (".md".data.reverse) p.data.reverse

/-- `parser.Note.__init__` on a parsed file. -/
def mkNote (f : FileEntry) : Note :=
  { path := f.path
    title := pathStem f.path
    content := f.content
    tags := extract_tags f.meta.tags
    created := extract_created f.meta.created
    modified := f.mtime
    para_location := f.meta.para }

/-- `Note.contains_text`. -/
def Note.contains_text (n : Note) (query : String)
    (case_sensitive : Bool) : Bool :=
  let sc := (n.title ++ "\n" ++ n.content).data
  if case_sensitive then containsSub query.data sc
  else containsSub (pyLower query.data) (pyLower sc)

/-- `Note.matches_criteria`. -/
def Note.matches_criteria (n : Note) (para_location : Option String)
    (tags : Option (List String))
    (created_after created_before : Option Int) : Bool :=
  if optStrTruthy para_location && !(n.para_location == para_location) then
    false
  else
    let noteTagsLower := n.tags.map fun t => String.mk (pyLower t.data)
    let tagsFail :=
      match tags with
      | none => false
      | some ts => ts.any fun rt =>
          !(noteTagsLower.contains (String.mk (pyLower rt.data)))
    if tagsFail then false
    else
      match n.created with
      | some c =>
        if (match created_after with
            | some a => decide (c < a)
            | none => false) then false
        else if (match created_before with
                 | some b => decide (c > b)
                 | none => false) then false
        else true
      | none => true

end ObsVault

namespace ObsVault

/-! ## `vault.py`: `VaultIndex` and `VaultReader` read operations

The index maps are association lists with CPython `dict` semantics:
insert-or-update keeps the first-insertion position, iteration order is
insertion order.  Paths are kept vault-relative throughout (the source
resolves relative paths against the vault root before lookup, which this
normalized model makes the identity, and `relative_to` never fails on an
indexed note). -/

def dictInsert {α : Type} (k : String) (v : α) :
    List (String × α) → List (String × α)
  | [] => [(k, v)]
  | (k', v') :: rest =>
    if k' == k then (k', v) :: rest else (k', v') :: dictInsert k v rest

def dictLookup {α : Type} (k : String) : List (String × α) → Option α
  | [] => none
  | (k', v) :: rest => if k' == k then some v else dictLookup k rest

def dictValues {α : Type} (d : List (String × α)) : List α :=
  d.map Prod.snd

/-- `config.is_excluded`: some '/'-component is an excluded folder name. -/
def is_excluded (path : String) (exclude_folders : List String) : Bool :=
  (pySplitChar '/' path.data).any fun part =>
    exclude_folders.contains (String.mk part)

structure VaultIndex where
  notes : List (String × Note)
  notes_by_path : List (String × Note)
deriving Repr, DecidableEq

/-- Loop body of `VaultIndex._build_index`: skip non-markdown and
    excluded paths, otherwise parse and insert under both keys. -/
def indexStep (exclude_folders : List String) (idx : VaultIndex)
    (f : FileEntry) : VaultIndex :=
  if !isMdPath f.path then idx
  else if is_excluded f.path exclude_folders then idx
  else
    let note := mkNote f
    { notes := dictInsert (String.mk (pyLower note.title.data)) note idx.notes
      notes_by_path := dictInsert f.path note idx.notes_by_path }

/-- `VaultIndex._build_index` over a document tree given in walk order. -/
def buildIndex (files : List FileEntry) (exclude_folders : List String) :
    VaultIndex :=
  files.foldl (indexStep exclude_folders) ⟨[], []⟩

/-- Is a file visited and parsed by the walk (markdown, not excluded)? -/
def fileIndexed (exclude_folders : List String) (f : FileEntry) : Bool :=
  isMdPath f.path && !is_excluded f.path exclude_folders

/-- `VaultIndex.get_note_by_title` (case-insensitive). -/
def get_note_by_title (idx : VaultIndex) (title : String) : Option Note :=
  dictLookup (String.mk (pyLower title.data)) idx.notes

/-- `VaultIndex.get_note_by_path`. -/
def get_note_by_path (idx : VaultIndex) (path : String) : Option Note :=
  dictLookup path idx.notes_by_path

/-- The para-location filter step shared by `search_content` and
    `list_notes` (`if para_location and note.para_location != ...`). -/
def paraOk (pl : Option String) (n : Note) : Bool :=
  !(optStrTruthy pl && !(n.para_location == pl))

/-- The folder filter step (`if folder: ... startswith(folder)`). -/
def folderOk (folder : Option String) (n : Note) : Bool :=
  match folder with
  | none => true
  | some f => if f == "" then true else strStartsWith f n.path

/-- Scan with accumulation and the `len(results) >= limit` break. -/
def takeMatches (pred : Note → Bool) (limit : Nat) :
    List Note → Nat → List Note
  | [], _ => []
  | n :: ns, sofar =>
    if pred n then
      if sofar + 1 ≥ limit then [n]
      else n :: takeMatches pred limit ns (sofar + 1)
    else takeMatches pred limit ns sofar

/-- `VaultIndex.search_content`. -/
def search_content (idx : VaultIndex) (query : String)
    (para_location folder : Option String) (case_sensitive : Bool)
    (limit : Nat) : List Note :=
  takeMatches
    (fun n => paraOk para_location n && folderOk folder n &&
      n.contains_text query case_sensitive)
    limit (dictValues idx.notes) 0

/-- Sort key for `list_notes` (`n.created if n.created else datetime.min`). -/
def createdKey (n : Note) : Int :=
  n.created.getD datetimeMin

def insertDesc (x : Note) : List Note → List Note
  | [] => [x]
  | y :: ys =>
    if createdKey x ≤ createdKey y then y :: insertDesc x ys
    else x :: y :: ys

/-- Stable sort by `created` descending, as CPython
    `list.sort(key=..., reverse=True)` (equal keys keep their order). -/
def sortByCreatedDesc (l : List Note) : List Note :=
  l.foldl (fun acc x => insertDesc x acc) []

/-- `VaultIndex.list_notes`. -/
def list_notes_index (idx : VaultIndex) (para_location folder : Option String)
    (tags : Option (List String)) (created_after created_before : Option Int)
    (limit : Nat) : List Note :=
  let results := takeMatches
    (fun n => folderOk folder n &&
      n.matches_criteria para_location tags created_after created_before)
    limit (dictValues idx.notes) 0
  sortByCreatedDesc results

/-- `VaultReader.read_note` (without the pure `resolve_links` enrichment,
    which only adds a field to a found note and cannot raise).  `.error`
    models the `ValueError`; `.ok none` is the not-found outcome. -/
def read_note (idx : VaultIndex) (path title : Option String) :
    Except String (Option Note) :=
  if !(optStrTruthy path) && !(optStrTruthy title) then
    .error "Must provide either path or title"
  else
    let n1 : Option Note :=
      if optStrTruthy path then get_note_by_path idx (path.getD "") else none
    let n2 : Option Note :=
      if n1.isNone && optStrTruthy title then
        get_note_by_title idx (title.getD "")
      else n1
    .ok n2

/-- Parse an optional ISO filter argument as `VaultReader.list_notes`
    does: absent or falsy strings stay unparsed, `ValueError` is
    swallowed to `None`. -/
def parseFilterArg (o : Option String) : Option Int :=
  match o with
  | none => none
  | some s => if s == "" then none else fromisoformat s

/-- The modification-date second pass of `VaultReader.list_notes`. -/
def modFilterPass (mod_after mod_before : Option Int) (n : Note) : Bool :=
  match n.modified with
  | some m =>
    !((match mod_after with | some a => decide (m < a) | none => false) ||
      (match mod_before with | some b => decide (m > b) | none => false))
  | none =>
    match n.created with
    | some c =>
      !((match mod_after with | some a => decide (c < a) | none => false) ||
        (match mod_before with | some b => decide (c > b) | none => false))
    | none => false

/-- `VaultReader.list_notes`: parses date arguments, over-fetches three
    times the capped limit from the index, applies the modification
    filter, truncates. -/
def list_notes_reader (idx : VaultIndex) (max_search_results : Nat)
    (para_location folder : Option String) (tags : Option (List String))
    (created_after created_before modified_after modified_before :
      Option String) (limit : Nat) : List Note :=
  let after_dt := parseFilterArg created_after
  let before_dt := parseFilterArg created_before
  let mod_after_dt := parseFilterArg modified_after
  let mod_before_dt := parseFilterArg modified_before
  let notes := list_notes_index idx para_location folder tags
    after_dt before_dt (min limit max_search_results * 3)
  if mod_after_dt.isSome || mod_before_dt.isSome then
    (notes.filter (modFilterPass mod_after_dt mod_before_dt)).take limit
  else
    notes.take limit

end ObsVault

namespace ObsVault

/-! ## `vault.py`: daily-note section update machinery

`update_daily_note` is embedded on its note-exists branch (the
`create_if_missing` template branch writes a fresh file and is not needed
by any claim).  The `generated_sections` frontmatter value is read
through a narrow model of `frontmatter.loads`/PyYAML covering exactly the
single-line shapes this code reads and writes: an unquoted flow mapping
(parsed to a dict), a quoted string, or a plain scalar; `pyStr` models
CPython `str()` on those values (`repr` quoting of dict keys and string
values). -/

/-- Join with a string separator. -/
def joinStr (sep : String) : List String → String
  | [] => ""
  | [x] => x
  | x :: xs => x ++ sep ++ joinStr sep xs

/-- A Python scalar as PyYAML yields it from a flow mapping entry. -/
inductive PyScalar where
  | s (v : String)
  | i (v : Nat)
deriving Repr, DecidableEq

/-- The `generated_sections` metadata value. -/
inductive YamlVal where
  | absent
  | vstr (v : String)
  | vmap (l : List (String × PyScalar))
deriving Repr, DecidableEq

/-- Python falsiness of the metadata value (`None`, `""`, `{}`). -/
def yamlFalsy : YamlVal → Bool
  | .absent => true
  | .vstr v => v == ""
  | .vmap l => l.isEmpty

/-- CPython `repr` of a string without quotes or backslashes inside. -/
def pyRepr (s : String) : String :=
  "'" ++ s ++ "'"

def pyScalarStr : PyScalar → String
  | .s v => pyRepr v
  | .i v => toString v

/-- CPython `str()` of the metadata value (str of a dict uses `repr` of
    keys and values). -/
def pyStr : YamlVal → String
  | .absent => ""
  | .vstr v => v
  | .vmap l =>
    String.mk [lbrace] ++
      joinStr ", " (l.map fun kv => pyRepr kv.1 ++ ": " ++ pyScalarStr kv.2) ++
      String.mk [rbrace]

/-- Strip matching single or double quotes from a YAML scalar token. -/
def yamlUnquote (t : List Char) : Option (List Char) :=
  match t with
  | '\'' :: rest => if rest.getLast? == some '\'' then some rest.dropLast else none
  | '"' :: rest => if rest.getLast? == some '"' then some rest.dropLast else none
  | _ => none

/-- A YAML plain or quoted scalar, classified as PyYAML does on the
    tokens this code produces (all-digit plain scalars are ints). -/
def yamlScalarOf (tok : List Char) : PyScalar :=
  match yamlUnquote tok with
  | some inner => .s (String.mk inner)
  | none =>
    if !tok.isEmpty && tok.all Char.isDigit then .i (digitsToNat tok)
    else .s (String.mk tok)

/-- Key of a flow-mapping entry (quoted and plain forms collapse to the
    same dict key). -/
def yamlKeyOf (tok : List Char) : String :=
  match yamlUnquote tok with
  | some inner => String.mk inner
  | none => String.mk tok

/-- Parse the value text of the `generated_sections:` line. -/
def parseYamlFlowVal (v : List Char) : YamlVal :=
  match v with
  | [] => .absent
  | c :: rest =>
    if c == lbrace then
      let inner := if rest.getLast? == some rbrace then rest.dropLast else rest
      .vmap ((pySplitChar ',' inner).foldl
        (fun m item =>
          match pySplitCharOnce ':' item with
          | some (k, val) =>
            dictInsert (yamlKeyOf (pyStrip k)) (yamlScalarOf (pyStrip val)) m
          | none => m)
        [])
    else
      match yamlUnquote (c :: rest) with
      | some inner => .vstr (String.mk inner)
      | none => .vstr (String.mk (c :: rest))

/-- The `generated_sections` value of a note's frontmatter block, as
    `frontmatter.loads(...).metadata.get("generated_sections", "")`
    produces it on the shapes this code reads and writes. -/
def getGeneratedSections (content : String) : YamlVal :=
  if !strStartsWith "---" content then .absent
  else
    match pySplitSub "---".data 2 content.data with
    | [_, fm, _] =>
      match (pySplitChar '\n' fm).find? (fun l =>
          isPrefixList "generated_sections:".data l) with
      | some l =>
        parseYamlFlowVal (pyStrip (l.drop "generated_sections:".length))
      | none => .absent
    | _ => .absent

/-- `VaultReader._get_stored_hashes` on the metadata value. -/
def _get_stored_hashes_val (v : YamlVal) : List (String × String) :=
  if yamlFalsy v then []
  else
    let s := pyStr v
    if containsSub [lbrace] s.data then
      let inner := pyStripChars [lbrace, rbrace] s.data
      (pySplitChar ',' inner).foldl
        (fun hashes pair =>
          match pySplitCharOnce ':' pair with
          | some (k, val) =>
            dictInsert (String.mk (pyStrip k)) (String.mk (pyStrip val)) hashes
          | none => hashes)
        []
    else []

/-- `_get_stored_hashes` applied to a note's content. -/
def _get_stored_hashes (content : String) : List (String × String) :=
  _get_stored_hashes_val (getGeneratedSections content)

/-- `VaultReader._compute_section_hash`: whitespace-normalize, MD5, first
    12 hex digits. -/
def _compute_section_hash (content : String) : String :=
  let normalized := String.mk (joinWith ' ' (pySplitWs content.data))
  String.mk ((md5Hex normalized).data.take 12)

def sectionStartMarker (name : String) : String :=
  "<!-- SECTION:" ++ name ++ ":START -->"

def sectionEndMarker (name : String) : String :=
  "<!-- SECTION:" ++ name ++ ":END -->"

/-- `VaultReader._extract_section_content`. -/
def _extract_section_content (full_content section_name : String) :
    Option String :=
  let sm := (sectionStartMarker section_name).data
  let em := (sectionEndMarker section_name).data
  match findSub sm full_content.data, findSub em full_content.data with
  | some si, some ei =>
    let contentStart := si + sm.length
    some (String.mk
      (pyStrip ((full_content.data.drop contentStart).take (ei - contentStart))))
  | _, _ => none

/-- `VaultReader._wrap_section`. -/
def _wrap_section (content section_name : String) : String :=
  sectionStartMarker section_name ++ "\n" ++ content ++ "\n" ++
    sectionEndMarker section_name

/-- `VaultReader._update_frontmatter_hashes`. -/
def _update_frontmatter_hashes (content : String)
    (hashes : List (String × String)) : String :=
  let hash_str := joinStr ", " (hashes.map fun kv => kv.1 ++ ": " ++ kv.2)
  let hash_line :=
    "generated_sections: " ++ String.mk [lbrace] ++ hash_str ++ String.mk [rbrace]
  if !strStartsWith "---" content then content
  else
    match pySplitSub "---".data 2 content.data with
    | [_, fm, body] =>
      let fm' :=
        if containsSub "generated_sections:".data fm then
          reSubLine "generated_sections:".data hash_line.data fm
        else pyRstrip fm ++ '\n' :: hash_line.data ++ ['\n']
      "---" ++ String.mk fm' ++ "---" ++ String.mk body
    | _ => content

structure UpdateResult where
  updated_sections : List String
  preserved_sections : List String
  new_sections : List String
  errors : List String
deriving Repr, DecidableEq

structure UpdState where
  updated_content : String
  new_hashes : List (String × String)
  result : UpdateResult
deriving Repr, DecidableEq

/-- One iteration of the `for section_name, new_content in sections.items()`
    loop of `update_daily_note`: membership and extraction test against
    the original `existing_content`, replacement against the running
    `updated_content`, and the unconditional `new_hashes[section_name] =
    new_hash` before the preserve check. -/
def sectionStep (existing_content : String)
    (stored_hashes : List (String × String)) (preserve_modified : Bool)
    (st : UpdState) (sec : String × String) : UpdState :=
  let section_name := sec.1
  let new_content := sec.2
  let new_hash := _compute_section_hash new_content
  let st := { st with new_hashes := dictInsert section_name new_hash st.new_hashes }
  let sm := sectionStartMarker section_name
  let em := sectionEndMarker section_name
  if !containsSub sm.data existing_content.data then
    { st with result :=
        { st.result with new_sections := st.result.new_sections ++ [section_name] } }
  else
    match _extract_section_content existing_content section_name with
    | none =>
      { st with result :=
          { st.result with errors :=
              st.result.errors ++ ["Could not extract section: " ++ section_name] } }
    | some current_content =>
      let stored_hash := (dictLookup section_name stored_hashes).getD ""
      if preserve_modified && !(stored_hash == "") &&
          !(_compute_section_hash current_content == stored_hash) then
        { st with result :=
            { st.result with preserved_sections :=
                st.result.preserved_sections ++ [section_name] } }
      else
        let wrapped := _wrap_section new_content section_name
        { st with
            updated_content := String.mk
              (reSubSpan sm.data em.data wrapped.data st.updated_content.data)
            result :=
              { st.result with updated_sections :=
                  st.result.updated_sections ++ [section_name] } }

/-- `VaultReader.update_daily_note` on an existing note: returns the new
    file content (what the atomic write-replace stores) and the result
    record. -/
def update_daily_note (existing_content : String)
    (sections : List (String × String)) (preserve_modified : Bool) :
    String × UpdateResult :=
  let stored_hashes := _get_stored_hashes existing_content
  let init : UpdState :=
    ⟨existing_content, stored_hashes, ⟨[], [], [], []⟩⟩
  let fin := sections.foldl
    (sectionStep existing_content stored_hashes preserve_modified) init
  (_update_frontmatter_hashes fin.updated_content fin.new_hashes, fin.result)

end ObsVault

namespace ObsVault

/-! ## Concrete inputs for the section-update claims -/

/-- A daily note with one marked section and no stored fingerprints yet. -/
def c1Note : String :=
  "---\ncreated: 2025-01-01\n---\n# Daily\n\n" ++
  "<!-- SECTION:agenda:START -->\nold\n<!-- SECTION:agenda:END -->\n"

/-- The file after one `update_daily_note` with `{"agenda": "A"}`. -/
def c1Once : String := (update_daily_note c1Note [("agenda", "A")] true).1

/-- The file after a second identical update. -/
def c1Twice : String := (update_daily_note c1Once [("agenda", "A")] true).1

/-- A daily note whose frontmatter stores a section fingerprint in the
    string form `_get_stored_hashes` can read, and whose section text was
    hand-edited (so its fingerprint differs from the stored one). -/
def c2Note : String :=
  "---\ngenerated_sections: \"" ++ String.mk [lbrace] ++
  "agenda: deadbeef1234" ++ String.mk [rbrace] ++ "\"\n---\n# D\n\n" ++
  "<!-- SECTION:agenda:START -->\nuser edited text\n<!-- SECTION:agenda:END -->\n"

/-- Result of updating the hand-edited note with new content `"NEW"`
    under `preserve_modified=True`. -/
def c2Out : String × UpdateResult :=
  update_daily_note c2Note [("agenda", "NEW")] true

end ObsVault

namespace ObsVault

/-! ## Claim C1 -/

/-- C1: the spec claims calling `update_daily_note` twice with the same
    sections yields a byte-identical file on the second call.  The code
    violates this: `_update_frontmatter_hashes` writes the fingerprints
    as an unquoted YAML flow mapping, YAML parses that to a dict, and
    `_get_stored_hashes` then reads `str()` of that dict, whose keys and
    values carry `repr` quotes — so the stored keys never match the
    section names again, and the second call rewrites the
    `generated_sections` line to a different string (a quoted duplicate
    entry appears).  This theorem evaluates both calls at the failing
    input and exhibits the changed file. -/
theorem c1_second_update_changes_file :
    c1Once =
      "---\ncreated: 2025-01-01\ngenerated_sections: " ++
      "\x7bagenda: 7fc56270e7a7\x7d\n---\n# Daily\n\n" ++
      "<!-- SECTION:agenda:START -->\nA\n<!-- SECTION:agenda:END -->\n" ∧
    c1Twice =
      "---\ncreated: 2025-01-01\ngenerated_sections: " ++
      "\x7b'agenda': '7fc56270e7a7', agenda: 7fc56270e7a7\x7d\n---\n# Daily\n\n" ++
      "<!-- SECTION:agenda:START -->\nA\n<!-- SECTION:agenda:END -->\n" ∧
    c1Twice ≠ c1Once := by
  set_option maxRecDepth 40000 in decide

/-! ## Claim C2 -/

/-- C2: counterexample.  At `c2Note` (stored fingerprint
    `"deadbeef1234"` for section `agenda`, live text `"user edited
    text"` whose fingerprint differs) an update with new content `"NEW"`
    under `preserve_modified=True` leaves the text unchanged and reports
    the section preserved — but the `generated_sections` frontmatter of
    the output maps `agenda` to the fingerprint of the NEW content
    (`new_hashes[section_name] = new_hash` runs before the preserve
    check and is persisted), which differs from the stored
    `"deadbeef1234"`.  This falsifies the claim's "does not overwrite
    its stored fingerprint" conjunct at this input. -/
theorem c2_preserve_overwrites_stored_fingerprint :
    c2Out.2.preserved_sections = ["agenda"] ∧
    _extract_section_content c2Out.1 "agenda" = some "user edited text" ∧
    _extract_section_content c2Note "agenda" = some "user edited text" ∧
    _get_stored_hashes c2Note = [("agenda", "deadbeef1234")] ∧
    getGeneratedSections c2Out.1 =
      .vmap [("agenda", .s (_compute_section_hash "NEW"))] ∧
    ¬ _compute_section_hash "NEW" = "deadbeef1234" := by
  set_option maxRecDepth 40000 in decide

/-- C2 (amended): for every section present in the note whose current
    inner text has a fingerprint different from the one stored for it,
    an update with `preserve_modified=True` leaves the running content
    untouched and records the section as preserved, but its entry in the
    persisted fingerprint map is overwritten with the fingerprint of the
    new content. -/
theorem c2_amended_preserved_text_but_fingerprint_updated
    (existing : String) (stored : List (String × String)) (st : UpdState)
    (name newContent current storedHash : String)
    (hmem : containsSub (sectionStartMarker name).data existing.data = true)
    (hext : _extract_section_content existing name = some current)
    (hstored : dictLookup name stored = some storedHash)
    (hne : ¬ storedHash = "")
    (hdiff : ¬ _compute_section_hash current = storedHash) :
    (sectionStep existing stored true st (name, newContent)).updated_content
        = st.updated_content ∧
    (sectionStep existing stored true st (name, newContent)).result.preserved_sections
        = st.result.preserved_sections ++ [name] ∧
    (sectionStep existing stored true st (name, newContent)).new_hashes
        = dictInsert name (_compute_section_hash newContent) st.new_hashes := by
  simp [sectionStep, hmem, hext, hstored, hne, hdiff]

/-- State of the update loop at the start of the `c2Note` run. -/
def c2St : UpdState :=
  ⟨c2Note, [("agenda", "deadbeef1234")], ⟨[], [], [], []⟩⟩

/-- C2 (amended) witness: the hypotheses hold at the concrete
    hand-edited note and the theorem applies there. -/
theorem c2_amended_fingerprint_updated_witness :
    containsSub (sectionStartMarker "agenda").data c2Note.data = true ∧
    ((sectionStep c2Note [("agenda", "deadbeef1234")] true c2St
        ("agenda", "NEW")).updated_content = c2St.updated_content ∧
     (sectionStep c2Note [("agenda", "deadbeef1234")] true c2St
        ("agenda", "NEW")).result.preserved_sections =
        c2St.result.preserved_sections ++ ["agenda"] ∧
     (sectionStep c2Note [("agenda", "deadbeef1234")] true c2St
        ("agenda", "NEW")).new_hashes =
        dictInsert "agenda" (_compute_section_hash "NEW") c2St.new_hashes) :=
  ⟨by set_option maxRecDepth 40000 in decide,
   c2_amended_preserved_text_but_fingerprint_updated c2Note
     [("agenda", "deadbeef1234")] c2St "agenda" "NEW" "user edited text"
     "deadbeef1234"
     (by set_option maxRecDepth 40000 in decide)
     (by set_option maxRecDepth 40000 in decide)
     (by decide) (by decide)
     (by set_option maxRecDepth 40000 in decide)⟩

end ObsVault

namespace ObsVault

/-! ## Claim C3 -/

/-- C3: every checklist line parsed by `parse_tasks` that contains no
    completion-date marker (the `"✅ YYYY-MM-DD"` regex finds nothing in
    its text) yields a task with `completed = false`, including lines
    whose checkbox contains `x` or `X`. -/
theorem c3_no_completion_marker_means_not_completed
    (content source_file : String) (t : Task)
    (hmem : t ∈ parse_tasks content source_file)
    (hnomarker : extractCompletionDate t.content = none) :
    t.completed = false := by
  unfold parse_tasks at hmem
  rw [List.mem_filterMap] at hmem
  obtain ⟨p, _hp, heq⟩ := hmem
  cases hml : matchTaskLine p.2 with
  | none => rw [hml] at heq; cases heq
  | some cb_body =>
    rw [hml] at heq
    obtain ⟨cb, body⟩ := cb_body
    simp only [Option.some.injEq] at heq
    subst heq
    have hc : (mkTask source_file (p.1 + 1) cb body).content = String.mk body := rfl
    rw [hc] at hnomarker
    simp only [mkTask, hnomarker, optStrTruthy]
    cases h0 : (cb.toLower == 'x') <;> simp [h0]

/-- C3 witness: a concrete checked line with no completion marker. -/
theorem c3_no_completion_marker_witness :
    mkTask "f.md" 1 'x' "a".data ∈ parse_tasks "- [x] a" "f.md" ∧
    extractCompletionDate (mkTask "f.md" 1 'x' "a".data).content = none ∧
    (mkTask "f.md" 1 'x' "a".data).completed = false :=
  ⟨by decide, by decide,
   c3_no_completion_marker_means_not_completed "- [x] a" "f.md"
     (mkTask "f.md" 1 'x' "a".data) (by decide) (by decide)⟩

/-! ## Claim C6 -/

/-- A note file without any `created` metadata. -/
def c6File : FileEntry := ⟨"n.md", "body text", {}, none⟩

/-- The one-note index built from it. -/
def c6Idx : VaultIndex := buildIndex [c6File] []

/-- C6: counterexample.  The spec claims a note with no parsed `created`
    value is excluded once a date filter is active; in the code,
    `matches_criteria` skips the date checks entirely when
    `self.created` is `None`, so the note is returned.  Here a
    `created_after` filter is active and the created-less note is in the
    result — the claim is false at this input. -/
theorem c6_dateless_note_not_excluded :
    (mkNote c6File).created = none ∧
    mkNote c6File ∈
      list_notes_index c6Idx none none none (some (dateSecs 2025 1 1)) none 50 := by
  decide

/-- C6 (amended): date filters have no effect on notes without a parsed
    `created` value — `matches_criteria` gives the same verdict as with
    no date filters at all (such notes pass whenever the other criteria
    pass). -/
theorem c6_amended_dateless_note_ignores_date_filters
    (n : Note) (pl : Option String) (tags : Option (List String))
    (created_after created_before : Option Int)
    (h : n.created = none) :
    n.matches_criteria pl tags created_after created_before =
      n.matches_criteria pl tags none none := by
  simp [Note.matches_criteria, h]

/-- C6 (amended) witness at the concrete created-less note. -/
theorem c6_amended_witness :
    (mkNote c6File).created = none ∧
    (mkNote c6File).matches_criteria none none (some 0) (some 99) =
      (mkNote c6File).matches_criteria none none none none :=
  ⟨by decide,
   c6_amended_dateless_note_ignores_date_filters (mkNote c6File) none none
     (some 0) (some 99) (by decide)⟩

/-! ## Claim C8 -/

/-- Heads of `dropWhile` never satisfy the dropped predicate. -/
theorem head_dropWhile_hash (l : List Char) :
    (l.dropWhile (· == '#')).head? ≠ some '#' := by
  induction l with
  | nil => simp [List.dropWhile]
  | cons c cs ih =>
    by_cases h : c = '#'
    · simpa [List.dropWhile, h] using ih
    · have hb : (c == '#') = false := by simp [h]
      simp [List.dropWhile, hb, h]

/-- C8: counterexample.  The spec claims exactly one leading `#` is
    stripped per tag, so `"##x"` should yield `"#x"`; the code uses
    `t.lstrip("#")`, which strips every leading `#`, yielding `"x"` (for
    both the delimited-string and the array form of the header value). -/
theorem c8_double_hash_fully_stripped :
    extract_tags (.vstr "##x") ≠ ["#x"] ∧
    extract_tags (.vstr "##x") = ["x"] ∧
    extract_tags (.vlist ["##x"]) = ["x"] := by
  decide

/-- C8 (amended): tag extraction accepts a delimited string or an array
    and strips every leading `#` from each tag — no produced tag starts
    with `#`. -/
theorem c8_amended_all_leading_hashes_stripped
    (v : TagsVal) (t : String) (hmem : t ∈ extract_tags v) :
    t.data.head? ≠ some '#' := by
  unfold extract_tags at hmem
  rw [List.mem_map] at hmem
  obtain ⟨tok, _htok, heq⟩ := hmem
  subst heq
  exact head_dropWhile_hash tok.data

/-- C8 (amended) witness. -/
theorem c8_amended_witness :
    "x" ∈ extract_tags (.vstr "##x") ∧ "x".data.head? ≠ some '#' :=
  ⟨by decide,
   c8_amended_all_leading_hashes_stripped (.vstr "##x") "x" (by decide)⟩

end ObsVault

namespace ObsVault

/-! ## Claim C9 -/

/-- C9: `read_note` signals an error exactly when neither a path nor a
    title selector is supplied (Python truthiness: `None` and the empty
    string count as not supplied), and with at least one selector
    supplied it returns the explicit not-found outcome `none` when the
    lookups miss — it never raises then. -/
theorem c9_read_note_error_iff_no_selector
    (idx : VaultIndex) (path title : Option String) :
    ((∃ e, read_note idx path title = .error e) ↔
      (optStrTruthy path = false ∧ optStrTruthy title = false)) ∧
    ((optStrTruthy path = true ∨ optStrTruthy title = true) →
      (∀ p, path = some p → get_note_by_path idx p = none) →
      (∀ s, title = some s → get_note_by_title idx s = none) →
      read_note idx path title = .ok none) := by
  constructor
  · constructor
    · rintro ⟨e, he⟩
      unfold read_note at he
      by_cases h : (!optStrTruthy path && !optStrTruthy title) = true
      · simp only [Bool.and_eq_true, Bool.not_eq_true'] at h
        exact h
      · rw [if_neg (by simpa using h)] at he
        cases he
    · rintro ⟨h1, h2⟩
      refine ⟨"Must provide either path or title", ?_⟩
      unfold read_note
      rw [if_pos (by simp [h1, h2])]
  · intro hsel hp ht
    unfold read_note
    rw [if_neg (by rcases hsel with h | h <;> simp [h])]
    have hn1 : (if optStrTruthy path then get_note_by_path idx (path.getD "")
        else none) = none := by
      cases path with
      | none => simp [optStrTruthy]
      | some p =>
        by_cases hpt : optStrTruthy (some p) = true
        · simp [hpt, hp p rfl]
        · rw [if_neg hpt]
    rw [hn1]
    cases title with
    | none => simp [optStrTruthy]
    | some s =>
      by_cases hts : optStrTruthy (some s) = true
      · simp [hts, ht s rfl]
      · have : optStrTruthy (some s) = false := by
          cases hb : optStrTruthy (some s)
          · rfl
          · exact absurd hb hts
        simp [this]

/-- Index for the C9 witness. -/
def c9Idx : VaultIndex :=
  buildIndex [⟨"w/Note.md", "hello", {}, none⟩] []

/-- C9 witness: both directions at concrete inputs — no selector gives
    an error, and a supplied-but-missing path gives `.ok none`. -/
theorem c9_read_note_witness :
    (∃ e, read_note c9Idx none none = Except.error e) ∧
    read_note c9Idx (some "zzz.md") none = .ok none :=
  ⟨((c9_read_note_error_iff_no_selector c9Idx none none).1).2 (by decide),
   (c9_read_note_error_iff_no_selector c9Idx (some "zzz.md") none).2
     (Or.inl (by decide))
     (by intro p hp; cases hp; decide)
     (by intro s hs; cases hs)⟩

/-! ## Claim C10 -/

/-- C10: whenever a `modified_after` or `modified_before` argument is
    supplied and parses, every note with neither a modification
    timestamp nor a created timestamp is absent from
    `VaultReader.list_notes`' result (the fallback chain is `modified`,
    then `created`, then exclusion). -/
theorem c10_mod_filter_excludes_dateless
    (idx : VaultIndex) (msr : Nat) (pl folder : Option String)
    (tags : Option (List String)) (ca cb ma mb : Option String)
    (limit : Nat)
    (hactive : (parseFilterArg ma).isSome = true ∨
      (parseFilterArg mb).isSome = true)
    (n : Note)
    (hmem : n ∈ list_notes_reader idx msr pl folder tags ca cb ma mb limit) :
    ¬(n.modified = none ∧ n.created = none) := by
  rintro ⟨hm, hc⟩
  have hcond : ((parseFilterArg ma).isSome || (parseFilterArg mb).isSome) = true := by
    rcases hactive with h | h <;> simp [h]
  unfold list_notes_reader at hmem
  rw [if_pos hcond] at hmem
  have hmem' := List.take_subset _ _ hmem
  rw [List.mem_filter] at hmem'
  have hpass := hmem'.2
  unfold modFilterPass at hpass
  rw [hm, hc] at hpass
  cases hpass

/-- A note file with a `created` date but no filesystem mtime. -/
def c10File : FileEntry := ⟨"m.md", "x", { created := .vstr "2025-01-01" }, none⟩

/-- Index for the C10 witness. -/
def c10Idx : VaultIndex := buildIndex [c10File] []

/-- C10 witness: with `modified_after="2020-01-01"` active, the dated
    note is in the result and the theorem applies to it. -/
theorem c10_mod_filter_witness :
    (parseFilterArg (some "2020-01-01")).isSome = true ∧
    mkNote c10File ∈ list_notes_reader c10Idx 100 none none none none none
      (some "2020-01-01") none 50 ∧
    ¬((mkNote c10File).modified = none ∧ (mkNote c10File).created = none) :=
  ⟨by decide, by decide,
   c10_mod_filter_excludes_dateless c10Idx 100 none none none none none
     (some "2020-01-01") none 50 (Or.inl (by decide)) (mkNote c10File)
     (by decide)⟩

end ObsVault

namespace ObsVault

/-! ## Claim C7 -/

/-- The folder filter is literal string-prefix matching on the
    vault-relative path. -/
theorem folderOk_eq_startsWith (F : String) (n : Note) :
    folderOk (some F) n = strStartsWith F n.path := by
  by_cases h : F = ""
  · subst h
    simp only [folderOk]
    rw [if_pos (by rfl)]
    rfl
  · have hb : (F == "") = false := by simp [h]
    simp [folderOk, hb, h]

/-- With no criteria, `matches_criteria` accepts every note. -/
theorem matches_criteria_all_none (n : Note) :
    n.matches_criteria none none none none = true := by
  unfold Note.matches_criteria
  simp only [optStrTruthy, Bool.false_and, Bool.false_eq_true, if_false]
  cases n.created <;> simp

/-- Below the limit, the scan-and-break loop is a plain filter. -/
theorem takeMatches_eq_filter (pred : Note → Bool) (limit : Nat) :
    ∀ (l : List Note) (sofar : Nat), sofar + l.length ≤ limit →
      takeMatches pred limit l sofar = l.filter pred := by
  intro l
  induction l with
  | nil => intro sofar _; simp [takeMatches]
  | cons n ns ih =>
    intro sofar h
    rw [List.length_cons] at h
    simp only [takeMatches]
    by_cases hp : pred n = true
    · rw [if_pos hp]
      by_cases hbreak : sofar + 1 ≥ limit
      · have hlen : ns.length = 0 := by omega
        have hnil : ns = [] := List.length_eq_zero.mp hlen
        subst hnil
        rw [if_pos hbreak]
        simp [List.filter, hp]
      · rw [if_neg hbreak, ih (sofar + 1) (by omega)]
        simp [List.filter, hp]
    · have hpb : pred n = false := by
        cases hx : pred n
        · rfl
        · exact absurd hx hp
      rw [if_neg (by simp [hpb]), ih sofar (by omega)]
      simp [List.filter, hpb]

/-- C7: with a folder filter `F` and no other criteria, and a limit at
    least the index size, `search_content` returns exactly the notes
    whose vault-relative path starts with `F` as a literal string prefix
    (and match the query), and `list_notes` returns exactly the notes
    with that literal prefix, sorted — the prefix test is not
    path-segment aware. -/
theorem c7_folder_filter_is_literal_prefix (idx : VaultIndex)
    (F query : String) (case_sensitive : Bool) (limit : Nat)
    (hlim : (dictValues idx.notes).length ≤ limit) :
    search_content idx query none (some F) case_sensitive limit =
      (dictValues idx.notes).filter (fun n =>
        strStartsWith F n.path && n.contains_text query case_sensitive) ∧
    list_notes_index idx none (some F) none none none limit =
      sortByCreatedDesc ((dictValues idx.notes).filter (fun n =>
        strStartsWith F n.path)) := by
  constructor
  · unfold search_content
    rw [takeMatches_eq_filter _ _ _ 0 (by omega)]
    congr 1
    funext n
    rw [folderOk_eq_startsWith]
    simp [paraOk, optStrTruthy]
  · unfold list_notes_index
    rw [takeMatches_eq_filter _ _ _ 0 (by omega)]
    dsimp only
    congr 2
    funext n
    rw [folderOk_eq_startsWith, matches_criteria_all_none]
    simp

/-- The prefix-collision vault: a note under `"1 - Projects2"`, one
    under `"1 - Projects"`, one elsewhere. -/
def c7Files : List FileEntry :=
  [⟨"1 - Projects2/x.md", "xx", {}, none⟩,
   ⟨"1 - Projects/y.md", "yy", {}, none⟩,
   ⟨"2 - AREAS/z.md", "zz", {}, none⟩]

/-- Index over the prefix-collision vault. -/
def c7Idx : VaultIndex := buildIndex c7Files []

/-- C7 witness: the theorem applies at the collision vault, and the
    note at `"1 - Projects2/x.md"` is indeed matched by the folder
    filter `"1 - Projects"` in both operations. -/
theorem c7_folder_filter_witness :
    (dictValues c7Idx.notes).length ≤ 3 ∧
    (search_content c7Idx "" none (some "1 - Projects") false 3 =
      (dictValues c7Idx.notes).filter (fun n =>
        strStartsWith "1 - Projects" n.path && n.contains_text "" false) ∧
     list_notes_index c7Idx none (some "1 - Projects") none none none 3 =
      sortByCreatedDesc ((dictValues c7Idx.notes).filter (fun n =>
        strStartsWith "1 - Projects" n.path))) ∧
    mkNote ⟨"1 - Projects2/x.md", "xx", {}, none⟩ ∈
      search_content c7Idx "" none (some "1 - Projects") false 3 ∧
    mkNote ⟨"1 - Projects2/x.md", "xx", {}, none⟩ ∈
      list_notes_index c7Idx none (some "1 - Projects") none none none 3 :=
  ⟨by decide,
   c7_folder_filter_is_literal_prefix c7Idx "1 - Projects" "" false 3
     (by decide),
   by decide, by decide⟩

end ObsVault

namespace ObsVault

/-! ## Claim C5 -/

theorem dictLookup_insert_self {α : Type} (k : String) (v : α)
    (d : List (String × α)) :
    dictLookup k (dictInsert k v d) = some v := by
  induction d with
  | nil => simp [dictInsert, dictLookup]
  | cons kv rest ih =>
    obtain ⟨k', v'⟩ := kv
    by_cases h : k' = k
    · subst h
      simp [dictInsert, dictLookup]
    · have hb : (k' == k) = false := by simp [h]
      simp [dictInsert, dictLookup, hb, ih]

theorem dictLookup_insert_other {α : Type} (k q : String) (v : α)
    (d : List (String × α)) (h : q ≠ k) :
    dictLookup q (dictInsert k v d) = dictLookup q d := by
  have hkq : (k == q) = false := by
    simp
    intro he
    exact h he.symm
  induction d with
  | nil => simp [dictInsert, dictLookup, hkq]
  | cons kv rest ih =>
    obtain ⟨k', v'⟩ := kv
    by_cases h2 : k' = k
    · subst h2
      simp [dictInsert, dictLookup, hkq]
    · have hb : (k' == k) = false := by simp [h2]
      by_cases h3 : k' = q
      · subst h3
        simp [dictInsert, dictLookup, hb]
      · have hb3 : (k' == q) = false := by simp [h3]
        simp [dictInsert, dictLookup, hb, hb3, ih]

/-- Lower-cased-title key under which a file is indexed. -/
def lcTitleKey (f : FileEntry) : String :=
  String.mk (pyLower (pathStem f.path).data)

theorem indexStep_skip (excl : List String) (idx : VaultIndex)
    (g : FileEntry) (hg : fileIndexed excl g = false) :
    indexStep excl idx g = idx := by
  unfold indexStep
  cases hmd : isMdPath g.path with
  | false => rw [if_pos (by simp [hmd])]
  | true =>
    have hex : is_excluded g.path excl = true := by
      unfold fileIndexed at hg
      rw [hmd] at hg
      simpa using hg
    rw [if_neg (by simp [hmd]), if_pos hex]

theorem indexStep_notes (excl : List String) (idx : VaultIndex)
    (g : FileEntry) (hg : fileIndexed excl g = true) :
    (indexStep excl idx g).notes =
      dictInsert (lcTitleKey g) (mkNote g) idx.notes := by
  unfold fileIndexed at hg
  rw [Bool.and_eq_true] at hg
  obtain ⟨h1, h2⟩ := hg
  unfold indexStep
  rw [if_neg (by simp [h1]), if_neg (by simpa using h2)]
  rfl

theorem indexStep_paths (excl : List String) (idx : VaultIndex)
    (g : FileEntry) (hg : fileIndexed excl g = true) :
    (indexStep excl idx g).notes_by_path =
      dictInsert g.path (mkNote g) idx.notes_by_path := by
  unfold fileIndexed at hg
  rw [Bool.and_eq_true] at hg
  obtain ⟨h1, h2⟩ := hg
  unfold indexStep
  rw [if_neg (by simp [h1]), if_neg (by simpa using h2)]

theorem foldl_notes_lookup_preserved (excl : List String) (k : String)
    (v : Note) :
    ∀ (files : List FileEntry) (idx : VaultIndex),
      dictLookup k idx.notes = some v →
      (∀ g ∈ files, fileIndexed excl g = true → lcTitleKey g = k →
        mkNote g = v) →
      dictLookup k (files.foldl (indexStep excl) idx).notes = some v := by
  intro files
  induction files with
  | nil => intro idx h _; simpa using h
  | cons g gs ih =>
    intro idx h hall
    rw [List.foldl_cons]
    apply ih
    · cases hgi : fileIndexed excl g with
      | false => rw [indexStep_skip excl idx g hgi]; exact h
      | true =>
        rw [indexStep_notes excl idx g hgi]
        by_cases hk : lcTitleKey g = k
        · rw [hk, dictLookup_insert_self]
          exact congrArg some (hall g (List.mem_cons_self g gs) hgi hk)
        · rw [dictLookup_insert_other _ _ _ _ (fun he => hk he.symm)]
          exact h
    · intro g' hg' h1 h2
      exact hall g' (List.mem_cons_of_mem g hg') h1 h2

theorem foldl_paths_lookup_preserved (excl : List String) (k : String)
    (v : Note) :
    ∀ (files : List FileEntry) (idx : VaultIndex),
      dictLookup k idx.notes_by_path = some v →
      (∀ g ∈ files, fileIndexed excl g = true → g.path = k →
        mkNote g = v) →
      dictLookup k (files.foldl (indexStep excl) idx).notes_by_path = some v := by
  intro files
  induction files with
  | nil => intro idx h _; simpa using h
  | cons g gs ih =>
    intro idx h hall
    rw [List.foldl_cons]
    apply ih
    · cases hgi : fileIndexed excl g with
      | false => rw [indexStep_skip excl idx g hgi]; exact h
      | true =>
        rw [indexStep_paths excl idx g hgi]
        by_cases hk : g.path = k
        · rw [hk, dictLookup_insert_self]
          exact congrArg some (hall g (List.mem_cons_self g gs) hgi hk)
        · rw [dictLookup_insert_other _ _ _ _ (fun he => hk he.symm)]
          exact h
    · intro g' hg' h1 h2
      exact hall g' (List.mem_cons_of_mem g hg') h1 h2

theorem foldl_notes_lookup (excl : List String) (f : FileEntry)
    (hf : fileIndexed excl f = true) :
    ∀ (files : List FileEntry) (idx : VaultIndex), f ∈ files →
      (∀ g ∈ files, fileIndexed excl g = true →
        lcTitleKey g = lcTitleKey f → mkNote g = mkNote f) →
      dictLookup (lcTitleKey f) (files.foldl (indexStep excl) idx).notes =
        some (mkNote f) := by
  intro files
  induction files with
  | nil => intro idx h _; cases h
  | cons g gs ih =>
    intro idx hmem hall
    rw [List.foldl_cons]
    rcases List.mem_cons.mp hmem with heq | hmem'
    · subst heq
      apply foldl_notes_lookup_preserved excl _ _ gs
      · rw [indexStep_notes excl idx f hf, dictLookup_insert_self]
      · intro g' hg' h1 h2
        exact hall g' (List.mem_cons_of_mem f hg') h1 h2
    · exact ih (indexStep excl idx g) hmem'
        (fun g' hg' => hall g' (List.mem_cons_of_mem g hg'))

theorem foldl_paths_lookup (excl : List String) (f : FileEntry)
    (hf : fileIndexed excl f = true) :
    ∀ (files : List FileEntry) (idx : VaultIndex), f ∈ files →
      (∀ g ∈ files, fileIndexed excl g = true → g.path = f.path →
        mkNote g = mkNote f) →
      dictLookup f.path (files.foldl (indexStep excl) idx).notes_by_path =
        some (mkNote f) := by
  intro files
  induction files with
  | nil => intro idx h _; cases h
  | cons g gs ih =>
    intro idx hmem hall
    rw [List.foldl_cons]
    rcases List.mem_cons.mp hmem with heq | hmem'
    · subst heq
      apply foldl_paths_lookup_preserved excl _ _ gs
      · rw [indexStep_paths excl idx f hf, dictLookup_insert_self]
      · intro g' hg' h1 h2
        exact hall g' (List.mem_cons_of_mem f hg') h1 h2
    · exact ih (indexStep excl idx g) hmem'
        (fun g' hg' => hall g' (List.mem_cons_of_mem g hg'))

/-- The colliding-title vault: two markdown files named `Note.md` in
    different folders. -/
def c5FileA : FileEntry := ⟨"a/Note.md", "A", {}, none⟩

/-- Second file with the same title. -/
def c5FileB : FileEntry := ⟨"b/Note.md", "B", {}, none⟩

/-- Index over the colliding vault. -/
def c5Idx : VaultIndex := buildIndex [c5FileA, c5FileB] []

/-- C5: counterexample.  The first note is markdown, not excluded, and
    retrievable by path — but `get_note_by_title` on its own title
    returns the *other* note (the title map is last-wins), so
    `byTitle(N.title) == N` fails for it and the universally quantified
    claim is false. -/
theorem c5_title_collision :
    isMdPath c5FileA.path = true ∧
    is_excluded c5FileA.path [] = false ∧
    get_note_by_path c5Idx (mkNote c5FileA).path = some (mkNote c5FileA) ∧
    get_note_by_title c5Idx (mkNote c5FileA).title ≠ some (mkNote c5FileA) ∧
    get_note_by_title c5Idx (mkNote c5FileA).title = some (mkNote c5FileB) := by
  decide

/-- C5 (amended): after a full build, every indexed file `f` (markdown,
    not excluded) is retrievable by its path, and by its title provided
    no other indexed file shares its lower-cased title (files sharing
    the key must parse to the same note). -/
theorem c5_amended_lookup_roundtrip (files : List FileEntry)
    (excl : List String) (f : FileEntry)
    (hf : f ∈ files) (hfi : fileIndexed excl f = true)
    (htitle : ∀ g ∈ files, fileIndexed excl g = true →
      lcTitleKey g = lcTitleKey f → mkNote g = mkNote f)
    (hpath : ∀ g ∈ files, fileIndexed excl g = true → g.path = f.path →
      mkNote g = mkNote f) :
    get_note_by_path (buildIndex files excl) (mkNote f).path =
      some (mkNote f) ∧
    get_note_by_title (buildIndex files excl) (mkNote f).title =
      some (mkNote f) := by
  constructor
  · exact foldl_paths_lookup excl f hfi files ⟨[], []⟩ hf hpath
  · exact foldl_notes_lookup excl f hfi files ⟨[], []⟩ hf htitle

/-- C5 (amended) witness: a one-file vault satisfies the uniqueness
    hypotheses and both lookups return the note. -/
theorem c5_amended_witness :
    fileIndexed [] c5FileA = true ∧
    (get_note_by_path (buildIndex [c5FileA] []) (mkNote c5FileA).path =
        some (mkNote c5FileA) ∧
     get_note_by_title (buildIndex [c5FileA] []) (mkNote c5FileA).title =
        some (mkNote c5FileA)) :=
  ⟨by decide,
   c5_amended_lookup_roundtrip [c5FileA] [] c5FileA (by decide) (by decide)
     (by decide) (by decide)⟩

end ObsVault

namespace ObsVault

/-! ## Claim C4 -/

/-- Task completed three days before 2025-06-15. -/
def c4Task1 : Task :=
  { content := "done", completed := true, completion_date := some "2025-06-12",
    due_date := none, priority := none, recurrence := none, tags := [],
    source_file := "f.md", source_line := 1, blocked := false }

/-- Task due one day before 2025-06-15, not completed. -/
def c4Task2 : Task :=
  { content := "overdue", completed := false, completion_date := none,
    due_date := some "2025-06-14", priority := none, recurrence := none,
    tags := [], source_file := "f.md", source_line := 2, blocked := false }

/-- Blocked, not completed task. -/
def c4Task3 : Task :=
  { content := "blocked", completed := false, completion_date := none,
    due_date := none, priority := none, recurrence := none, tags := [],
    source_file := "f.md", source_line := 3, blocked := true }

/-- The claim's task list, with "today" = 2025-06-15. -/
def c4Tasks : List Task := [c4Task1, c4Task2, c4Task3]

/-- C4: counterexample.  At wall clock 2025-06-15 00:00 the claimed
    `completed_this_week`, `overdue` and `blocked` counts hold, but
    `active` is 1, not 0: the overdue task is neither completed nor
    blocked, and the code counts every such task as active. -/
theorem c4_overdue_task_counts_as_active :
    (calculate_stats (dateSecs 2025 6 15) c4Tasks 7).completed_this_week = 1 ∧
    (calculate_stats (dateSecs 2025 6 15) c4Tasks 7).overdue = 1 ∧
    (calculate_stats (dateSecs 2025 6 15) c4Tasks 7).blocked = 1 ∧
    ¬ (calculate_stats (dateSecs 2025 6 15) c4Tasks 7).active = 0 := by
  decide

/-- C4 (amended): for every wall-clock instant in the day 2025-06-15,
    the example task list yields `completed_this_week = 1`, `overdue =
    1`, `blocked = 1` and `active = 1` (the overdue task is active). -/
theorem c4_amended_stats (now : Int)
    (h1 : dateSecs 2025 6 15 ≤ now) (h2 : now < dateSecs 2025 6 16) :
    (calculate_stats now c4Tasks 7).completed_this_week = 1 ∧
    (calculate_stats now c4Tasks 7).overdue = 1 ∧
    (calculate_stats now c4Tasks 7).blocked = 1 ∧
    (calculate_stats now c4Tasks 7).active = 1 := by
  rw [show dateSecs 2025 6 15 = 1749945600 from by decide] at h1
  rw [show dateSecs 2025 6 16 = 1750032000 from by decide] at h2
  have hw : c4Task1.is_completed_in_range now 7 = true := by
    simp [Task.is_completed_in_range, c4Task1,
      show optStrTruthy (some "2025-06-12") = true from by decide,
      show fromisoformat "2025-06-12" = some 1749686400 from by decide]
    omega
  have hov1 : c4Task1.is_overdue now = false := by
    simp [Task.is_overdue, c4Task1]
  have hov2 : c4Task2.is_overdue now = true := by
    simp [Task.is_overdue, c4Task2,
      show optStrTruthy (some "2025-06-14") = true from by decide,
      show fromisoformat "2025-06-14" = some 1749859200 from by decide]
    omega
  have hov3 : c4Task3.is_overdue now = false := by
    simp [Task.is_overdue, c4Task3, optStrTruthy]
  refine ⟨?_, ?_, ?_, ?_⟩ <;>
    simp [calculate_stats, c4Tasks, List.filter_cons, hw, hov1, hov2, hov3,
      show (c4Task1.completed && optStrTruthy c4Task1.completion_date) = true
        from by decide,
      show (c4Task2.completed && optStrTruthy c4Task2.completion_date) = false
        from by decide,
      show (c4Task3.completed && optStrTruthy c4Task3.completion_date) = false
        from by decide,
      show (!c4Task1.completed && !c4Task1.blocked) = false from by decide,
      show (!c4Task2.completed && !c4Task2.blocked) = true from by decide,
      show (!c4Task3.completed && !c4Task3.blocked) = false from by decide,
      show (c4Task1.blocked && !c4Task1.completed) = false from by decide,
      show (c4Task2.blocked && !c4Task2.completed) = false from by decide,
      show (c4Task3.blocked && !c4Task3.completed) = true from by decide]

/-- C4 (amended) witness at the concrete instant 2025-06-15 00:00. -/
theorem c4_amended_stats_witness :
    dateSecs 2025 6 15 ≤ dateSecs 2025 6 15 ∧
    (calculate_stats (dateSecs 2025 6 15) c4Tasks 7).completed_this_week = 1 ∧
    (calculate_stats (dateSecs 2025 6 15) c4Tasks 7).overdue = 1 ∧
    (calculate_stats (dateSecs 2025 6 15) c4Tasks 7).blocked = 1 ∧
    (calculate_stats (dateSecs 2025 6 15) c4Tasks 7).active = 1 :=
  ⟨le_refl _, c4_amended_stats (dateSecs 2025 6 15) (le_refl _) (by decide)⟩

end ObsVault
